import Mathlib

/-!
# Verification of the ERC-5564 stealth-address scripts

Shallow embedding of the cryptographic core of the repository's three demo
scripts (`src/scripts/test-stealth-address.ts` and the two scripts in
`src/unnamed/part_001`, here called the "viem script" and the "walkthrough
script"), together with proofs settling the frozen claims about them.

## Modelling conventions

* The secp256k1 group of points is cyclic of prime order
  `CURVE_ORDER` and generated by `G`; we represent the point `k·G` by the
  residue `k : ZMod CURVE_ORDER` (its discrete logarithm).  Point addition
  is addition in `ZMod CURVE_ORDER`, scalar multiplication of a point by a
  scalar is multiplication, and the point at infinity is `0`.
* Byte strings (`Uint8Array` values and the byte content of `Hex` strings)
  are `List Nat`, one entry per byte.  Hex strings that merely re-encode
  bytes are identified with the bytes they denote; private-key hex strings
  are identified with the big-endian natural number they denote where the
  code consumes them numerically (`BigInt(hex)`, noble's scalar parsing).
* `keccak256` and the library's point serialisations (compressed,
  uncompressed, and the encoding produced by `getSharedSecret`) are external
  library primitives; they are parameters of the embedding, bundled in
  `CryptoPrims`.  Every theorem quantifies over them, and concrete witnesses
  instantiate them with executable stand-ins.
* Fallible library calls (noble throwing on an out-of-range scalar, on a
  point at infinity during affine conversion, viem's `privateKeyToAddress`
  rejecting an out-of-range key) are modelled with `Option`: `none` is a
  thrown exception.
-/

/-- The order of the secp256k1 group, as defined (`CURVE_ORDER`) in
`src/scripts/test-stealth-address.ts` and in both scripts of
`src/unnamed/part_001`. -/
def CURVE_ORDER : Nat :=
  0xFFFFFFFFFFFFFFFFFFFFFFFFFFFFFFFEBAAEDCE6AF48A03BBFD25E8CD0364141

/-- The ERC-5564 scheme id constant (`SCHEME_ID = 1` in every script). -/
def SCHEME_ID : Nat := 1

/-- A point of the secp256k1 group, represented by its discrete logarithm
base `G` (the group is cyclic of order `CURVE_ORDER`). -/
abbrev Point : Type := ZMod CURVE_ORDER

instance : NeZero CURVE_ORDER := ⟨by decide⟩

/-- Big-endian interpretation of a byte string as a natural number
(`BigInt('0x…')` in the scripts; noble's `bytesToNumber`). -/
def beNat (bytes : List Nat) : Nat :=
  bytes.foldl (fun acc b => acc * 256 + b) 0

/-- Big-endian fixed-width byte encoding of a natural number; used only to
build executable stand-ins for the library's point serialisations. -/
def natToBytesBE (len v : Nat) : List Nat :=
  (List.range len).map (fun i => v / 256 ^ (len - 1 - i) % 256)

/-- The last `k` bytes of a byte string (`slice(-2k)` on the corresponding
hex string). -/
def lastBytes (k : Nat) (l : List Nat) : List Nat :=
  l.drop (l.length - k)

/-- The external cryptographic primitives used by the scripts: `keccak256`
(from viem) and the library's point serialisations.  `encC` is the
33-byte compressed encoding (`getPublicKey(…, true)`, `toHex(true)`,
`getSharedSecret(…, true)`), `encU` the 65-byte uncompressed encoding
(`toHex(false)`, leading `0x04` byte), and `encS` the encoding returned by
the viem script's `getSharedSecret` call that passes no compression flag. -/
structure CryptoPrims where
  keccak : List Nat → List Nat
  encC : Point → List Nat
  encU : Point → List Nat
  encS : Point → List Nat

/-- `getPublicKey(privateKey, true)` as used in every script: noble parses
the 32-byte scalar big-endian, throws unless `0 < k < CURVE_ORDER`, and
returns the compressed point `k·G`; we return the point itself. -/
def getPublicKey (k : Nat) : Option Point :=
  if 0 < k ∧ k < CURVE_ORDER then some ((k : Nat) : Point) else none

/-- `computeSharedSecret` of `src/scripts/test-stealth-address.ts` (and of
the walkthrough script, where it is identical): noble's
`getSharedSecret(priv, pub, true)` validates `0 < priv < CURVE_ORDER`
(throwing otherwise) and returns the compressed encoding of `priv·P`. -/
def computeSharedSecret (C : CryptoPrims) (priv : Nat) (P : Point) :
    Option (List Nat) :=
  if 0 < priv ∧ priv < CURVE_ORDER then
    some (C.encC (((priv : Nat) : Point) * P))
  else none

/-- `generatePrivateKey` of every script:
`bytesToHex(crypto.getRandomValues(new Uint8Array(32)))`.  The random draw
is made explicit as the input `randomBytes`; the function hex-encodes the
drawn bytes and returns them unchanged — there is no range validation.  We
return the scalar value the resulting hex string denotes. -/
def generatePrivateKey (randomBytes : List Nat) : Nat :=
  beNat randomBytes

/-- `Point.add` of noble-secp256k1 as called by the scripts: the Jacobian
sum is converted back to affine coordinates, which inverts the `z`
coordinate and therefore throws exactly when the sum is the point at
infinity (`z = 0`).  Modelled as the failing case of the addition. -/
def addPoints (P Q : Point) : Option Point :=
  if P + Q = 0 then none else some (P + Q)

/-- The address of a point: `keccak256` of the 64 coordinate bytes of the
uncompressed encoding (`toHex(false)` minus the leading `0x04`), keeping the
last 20 bytes (`slice(-40)` on the hex string).  This is the address
computation inlined in each script's `generateStealthAddress` and performed
by viem's `privateKeyToAddress` (up to the checksum casing, which the
scripts erase with `toLowerCase()` before comparing). -/
def pointToAddress (C : CryptoPrims) (P : Point) : List Nat :=
  lastBytes 20 (C.keccak ((C.encU P).drop 1))

/-- viem's `privateKeyToAddress`: throws unless `0 < d < CURVE_ORDER`, then
derives the address of `d·G`. -/
def privateKeyToAddress (C : CryptoPrims) (d : Nat) : Option (List Nat) :=
  if 0 < d ∧ d < CURVE_ORDER then some (pointToAddress C ((d : Nat) : Point))
  else none

/-- The recipient-side scalar addition `(a + b) % CURVE_ORDER`, inlined in
each script's `scanAndRecover` (the spec's `ScalarAddMod`). -/
def scalarAddMod (a b : Nat) : Nat :=
  (a + b) % CURVE_ORDER

/-- A recipient meta-address: the pair of public keys the sender consumes
(`{ spendingPubKey, viewingPubKey }`). -/
structure MetaAddress where
  spendingPubKey : Point
  viewingPubKey : Point
deriving DecidableEq

/-- The recipient's key material as passed to `scanAndRecover` in every
script. -/
structure RecipientKeys where
  spendingPrivKey : Nat
  viewingPrivKey : Nat
  spendingPubKey : Point
  viewingPubKey : Point
deriving DecidableEq

/-- The announcement shape consumed by `scanAndRecover` in
`src/scripts/test-stealth-address.ts` (and produced by its
`generateStealthAddress`; the unused constant `ciphertext: "0x..."`
placeholder field is not modelled). -/
structure AnnouncementTS where
  stealthAddress : List Nat
  ephemeralPubKey : Point
  viewTag : Nat
deriving DecidableEq

/-- The branch a `scanAndRecover` run ends in.  The TypeScript functions
report this verdict only on the console (view-tag mismatch log, SUCCESS log,
FAILURE error log) — their return value is `undefined` on every path, see
`scanReturnValue`. -/
inductive ScanOutcome where
  | noMatch : ScanOutcome
  | success (stealthPrivKey : Nat) (derivedAddress : List Nat) : ScanOutcome
  | mismatch (stealthPrivKey : Nat) (derivedAddress : List Nat) : ScanOutcome
deriving DecidableEq

/-- `generateStealthAddress` of `src/scripts/test-stealth-address.ts`.
The ephemeral random draw is explicit: `ephPriv` is the scalar denoted by
the `generatePrivateKey()` result.  Failure (`none`) models a throw from
noble: ephemeral key out of range (`getPublicKey`), shared-secret scalar out
of range (`getSharedSecret`), digest out of range when used as a private key
(`getPublicKey(s_scalar)`), or a point-at-infinity sum (`Point.add`). -/
def generateStealthAddress (C : CryptoPrims) (meta : MetaAddress)
    (ephPriv : Nat) : Option AnnouncementTS :=
  match getPublicKey ephPriv with
  | none => none
  | some ephPub =>
    match computeSharedSecret C ephPriv meta.viewingPubKey with
    | none => none
    | some sharedSecret =>
      let hashedSharedSecret := C.keccak sharedSecret
      let viewTag := hashedSharedSecret.headD 0
      match getPublicKey (beNat hashedSharedSecret) with
      | none => none
      | some s_G =>
        match addPoints meta.spendingPubKey s_G with
        | none => none
        | some p_stealth =>
          some { stealthAddress := pointToAddress C p_stealth
                 ephemeralPubKey := ephPub
                 viewTag := viewTag }

/-- `scanAndRecover` of `src/scripts/test-stealth-address.ts`, returning the
branch it ends in (`ScanOutcome`); `none` models a throw
(`getSharedSecret` on an out-of-range viewing key, `privateKeyToAddress` on
a zero stealth key). -/
def scanAndRecover (C : CryptoPrims) (ann : AnnouncementTS)
    (keys : RecipientKeys) : Option ScanOutcome :=
  match computeSharedSecret C keys.viewingPrivKey ann.ephemeralPubKey with
  | none => none
  | some sharedSecret =>
    let hashedSharedSecret := C.keccak sharedSecret
    let calculatedViewTag := hashedSharedSecret.headD 0
    if calculatedViewTag ≠ ann.viewTag then some ScanOutcome.noMatch
    else
      let d_stealth :=
        scalarAddMod keys.spendingPrivKey (beNat hashedSharedSecret)
      match privateKeyToAddress C d_stealth with
      | none => none
      | some derivedAddress =>
        if derivedAddress = ann.stealthAddress then
          some (ScanOutcome.success d_stealth derivedAddress)
        else
          some (ScanOutcome.mismatch d_stealth derivedAddress)

/-- The value `scanAndRecover` actually returns to its caller: `undefined`
on every non-throwing path (the early `return;` on a tag mismatch and both
verdict branches fall off the function without a return value). -/
def scanReturnValue (C : CryptoPrims) (ann : AnnouncementTS)
    (keys : RecipientKeys) : Option Unit :=
  (scanAndRecover C ann keys).map (fun _ => ())

/-- The view-tag accept/reject decision of `scanAndRecover`, as a function
of exactly the data it reads before the early return: the recipient's
viewing private key and the announcement's `ephemeralPubKey` and `viewTag`.
`some true` = tag matched, `some false` = tag mismatch (early return),
`none` = `getSharedSecret` threw. -/
def scanTagDecision (C : CryptoPrims) (viewingPrivKey : Nat)
    (ephemeralPubKey : Point) (viewTag : Nat) : Option Bool :=
  (computeSharedSecret C viewingPrivKey ephemeralPubKey).map
    (fun sharedSecret => (C.keccak sharedSecret).headD 0 == viewTag)

/-! ## The viem script (first half of `src/unnamed/part_001`)

This script derives everything from `viem`'s re-exported noble-curves
`secp256k1`.  Its `computeSharedSecret` returns
`keccak256(getSharedSecret(priv, pub))` — already a digest — and its
`generateStealthAddress` then takes the view tag from the first byte of
that digest but hashes the digest a *second* time to obtain the scalar
(`s_scalar = keccak256(hexToBytes(sharedSecret))`). -/

/-- `computeSharedSecret` of the viem script (lines 40–67 of
`src/unnamed/part_001`): `keccak256(secp256k1.getSharedSecret(priv, pub))`,
with no compression flag passed — `encS` stands for the encoding the
library returns there.  noble validates `0 < priv < CURVE_ORDER`. -/
def Viem.computeSharedSecret (C : CryptoPrims) (priv : Nat) (P : Point) :
    Option (List Nat) :=
  if 0 < priv ∧ priv < CURVE_ORDER then
    some (C.keccak (C.encS (((priv : Nat) : Point) * P)))
  else none

/-- What the viem script's `generateStealthAddress` produces.  The source
also builds a `stealthAddress` string, but feeds the already-hex digest
through `bytesToHex` (a byte/hex type confusion); no claim concerns that
field, so the result here carries the computed stealth point itself
(`p_stealth_point`) instead of its serialisation. -/
structure Viem.StealthResult where
  ephemeralPubKey : Point
  viewTag : Nat
  stealthPoint : Point
deriving DecidableEq

/-- `generateStealthAddress` of the viem script (lines 72–131 of
`src/unnamed/part_001`): view tag = first byte of `computeSharedSecret`'s
digest; scalar = `keccak256` of that digest *again*
(`ProjectivePoint.fromPrivateKey` validates its range, and serialising a
point-at-infinity sum throws). -/
def Viem.generateStealthAddress (C : CryptoPrims) (meta : MetaAddress)
    (ephPriv : Nat) : Option Viem.StealthResult :=
  match getPublicKey ephPriv with
  | none => none
  | some ephPub =>
    match Viem.computeSharedSecret C ephPriv meta.viewingPubKey with
    | none => none
    | some sharedSecret =>
      let viewTag := sharedSecret.headD 0
      let s_scalar := C.keccak sharedSecret
      if 0 < beNat s_scalar ∧ beNat s_scalar < CURVE_ORDER then
        let p_stealth := meta.spendingPubKey + ((beNat s_scalar : Nat) : Point)
        if p_stealth = 0 then none
        else some { ephemeralPubKey := ephPub
                    viewTag := viewTag
                    stealthPoint := p_stealth }
      else none

/-- `scanAndRecover` of the viem script (lines 136–181 of
`src/unnamed/part_001`): the calculated view tag is the first byte of the
`computeSharedSecret` digest, and the recovered scalar is `keccak256` of
that digest again, added to the spending key mod `CURVE_ORDER`. -/
def Viem.scanAndRecover (C : CryptoPrims) (ann : AnnouncementTS)
    (keys : RecipientKeys) : Option ScanOutcome :=
  match Viem.computeSharedSecret C keys.viewingPrivKey ann.ephemeralPubKey with
  | none => none
  | some sharedSecret =>
    let calculatedViewTag := sharedSecret.headD 0
    if calculatedViewTag ≠ ann.viewTag then some ScanOutcome.noMatch
    else
      let s_scalar := C.keccak sharedSecret
      let d_stealth := scalarAddMod keys.spendingPrivKey (beNat s_scalar)
      match privateKeyToAddress C d_stealth with
      | none => none
      | some derivedAddress =>
        if derivedAddress = ann.stealthAddress then
          some (ScanOutcome.success d_stealth derivedAddress)
        else
          some (ScanOutcome.mismatch d_stealth derivedAddress)

/-! ## The walkthrough script (second half of `src/unnamed/part_001`)

This script carries full ERC-5564 announcements (with `schemeId`, `caller`
and a `metadata` field whose first byte is the view tag) and uses the same
single-hash convention as `src/scripts/test-stealth-address.ts`. -/

/-- The `Announcement` interface of the walkthrough script (lines 244–250 of
`src/unnamed/part_001`). -/
structure Walk.Announcement where
  schemeId : Nat
  stealthAddress : List Nat
  caller : List Nat
  ephemeralPubKey : Point
  metadata : List Nat
deriving DecidableEq

/-- `scanAndRecover` of the walkthrough script (lines 377–448 of
`src/unnamed/part_001`): parses the view tag out of `metadata`'s first
byte, then proceeds exactly as the single-hash scanner.  Note that the
function reads `announcement.schemeId` only to log it — no branch depends
on it. -/
def Walk.scanAndRecover (C : CryptoPrims) (ann : Walk.Announcement)
    (keys : RecipientKeys) : Option ScanOutcome :=
  let viewTagFromMetadata := ann.metadata.headD 0
  match computeSharedSecret C keys.viewingPrivKey ann.ephemeralPubKey with
  | none => none
  | some sharedSecret =>
    let hashedSharedSecret := C.keccak sharedSecret
    let calculatedViewTag := hashedSharedSecret.headD 0
    if calculatedViewTag ≠ viewTagFromMetadata then some ScanOutcome.noMatch
    else
      let d_stealth :=
        scalarAddMod keys.spendingPrivKey (beNat hashedSharedSecret)
      match privateKeyToAddress C d_stealth with
      | none => none
      | some derivedAddress =>
        if derivedAddress = ann.stealthAddress then
          some (ScanOutcome.success d_stealth derivedAddress)
        else
          some (ScanOutcome.mismatch d_stealth derivedAddress)

/-! ## Meta-address wire strings

JavaScript strings are modelled as `List Char`. -/

/-- One hex digit (lowercase, as produced by viem's encoders). -/
def hexDigit (k : Nat) : Char :=
  if k < 10 then Char.ofNat (48 + k) else Char.ofNat (87 + k)

/-- Two lowercase hex characters for one byte. -/
def byteToHexChars (b : Nat) : List Char :=
  [hexDigit (b / 16), hexDigit (b % 16)]

/-- Lowercase hex of a byte string, without a `0x` prefix. -/
def bytesToHexChars (l : List Nat) : List Char :=
  (l.map byteToHexChars).flatten

/-- A public key as the scripts store it: the `0x`-prefixed lowercase hex of
its (33-byte compressed) encoding. -/
def pubKeyHexChars (pubKeyBytes : List Nat) : List Char :=
  '0' :: 'x' :: bytesToHexChars pubKeyBytes

/-- The meta-address string of the walkthrough script (line 299 of
`src/unnamed/part_001`, commented there as the "Official format:
concatenated keys, no separator"):
``st:eth:0x${spendingPubKey.slice(2)}${viewingPubKey.slice(2)}``. -/
def metaAddressString (spendingPubKeyHex viewingPubKeyHex : List Char) :
    List Char :=
  "st:eth:0x".data ++ spendingPubKeyHex.drop 2 ++ viewingPubKeyHex.drop 2

/-- The colon-separated display form used by the two older scripts
(line 133 of `src/unnamed/part_000`, line 36 of `src/unnamed/part_002`):
``st:eth:${spendingPubKey}:${viewingPubKey}`` — each key keeps its own
`0x` prefix. -/
def metaAddressStringColon (spendingPubKeyHex viewingPubKeyHex : List Char) :
    List Char :=
  "st:eth:".data ++ spendingPubKeyHex ++ ":".data ++ viewingPubKeyHex

/-! ## Executable stand-ins for the external primitives

Used by the concrete witnesses and counterexamples.  `toyPrims` has a
constant digest function; `toyPrims2` has a non-constant one (so that
hashing twice is observably different from hashing once). -/

/-- Executable primitives with a constant 32-byte digest. -/
def toyPrims : CryptoPrims where
  keccak := fun _ => List.replicate 31 0 ++ [1]
  encC := fun P => 2 :: natToBytesBE 32 P.val
  encU := fun P => 4 :: natToBytesBE 64 P.val
  encS := fun P => 2 :: natToBytesBE 32 P.val

/-- Executable primitives whose digest function is not idempotent:
the digest of a byte string is one byte, its successor mod 256. -/
def toyPrims2 : CryptoPrims where
  keccak := fun b => [(b.headD 0 + 1) % 256]
  encC := fun P => [2, P.val % 256]
  encU := fun P => [4, P.val % 256]
  encS := fun P => [P.val % 256]

/-! ## Helper lemmas -/

theorem curve_order_pos : 0 < CURVE_ORDER := by decide

theorem getPublicKey_valid {k : Nat} (h1 : 0 < k) (h2 : k < CURVE_ORDER) :
    getPublicKey k = some ((k : Nat) : Point) := by
  unfold getPublicKey
  exact if_pos ⟨h1, h2⟩

theorem getPublicKey_eq_some {k : Nat} {P : Point}
    (h : getPublicKey k = some P) :
    (0 < k ∧ k < CURVE_ORDER) ∧ P = ((k : Nat) : Point) := by
  unfold getPublicKey at h
  by_cases hk : 0 < k ∧ k < CURVE_ORDER
  · rw [if_pos hk] at h
    exact ⟨hk, (Option.some.inj h).symm⟩
  · rw [if_neg hk] at h
    cases h

theorem computeSharedSecret_valid (C : CryptoPrims) {k : Nat}
    (h1 : 0 < k) (h2 : k < CURVE_ORDER) (P : Point) :
    computeSharedSecret C k P = some (C.encC (((k : Nat) : Point) * P)) := by
  unfold computeSharedSecret
  exact if_pos ⟨h1, h2⟩

theorem viemSharedSecret_valid (C : CryptoPrims) {k : Nat}
    (h1 : 0 < k) (h2 : k < CURVE_ORDER) (P : Point) :
    Viem.computeSharedSecret C k P =
      some (C.keccak (C.encS (((k : Nat) : Point) * P))) := by
  unfold Viem.computeSharedSecret
  exact if_pos ⟨h1, h2⟩

theorem addPoints_eq_some {P Q R : Point} (h : addPoints P Q = some R) :
    P + Q ≠ 0 ∧ R = P + Q := by
  unfold addPoints at h
  by_cases h0 : P + Q = 0
  · rw [if_pos h0] at h
    cases h
  · rw [if_neg h0] at h
    exact ⟨h0, (Option.some.inj h).symm⟩

theorem scalarAddMod_lt (a b : Nat) : scalarAddMod a b < CURVE_ORDER :=
  Nat.mod_lt _ curve_order_pos

theorem scalarAddMod_cast (a b : Nat) :
    ((scalarAddMod a b : Nat) : Point) =
      ((a : Nat) : Point) + ((b : Nat) : Point) := by
  unfold scalarAddMod
  rw [ZMod.natCast_mod, Nat.cast_add]

theorem scalarAddMod_pos {a b : Nat}
    (h : ((a : Nat) : Point) + ((b : Nat) : Point) ≠ 0) :
    0 < scalarAddMod a b := by
  apply Nat.pos_of_ne_zero
  intro h0
  apply h
  rw [← scalarAddMod_cast, h0]
  exact Nat.cast_zero

theorem privateKeyToAddress_valid (C : CryptoPrims) {d : Nat}
    (h1 : 0 < d) (h2 : d < CURVE_ORDER) :
    privateKeyToAddress C d = some (pointToAddress C ((d : Nat) : Point)) := by
  unfold privateKeyToAddress
  exact if_pos ⟨h1, h2⟩

/-! ## Claim theorems -/

/-- C1: For every consistent recipient key pair and every valid ephemeral
private key, running `scanAndRecover` on the announcement produced by
`generateStealthAddress` for that recipient's meta-address recovers a
stealth private key `d = (spendingPrivKey + hash(SharedSecret)) mod
CURVE_ORDER` whose derived address equals the announced `stealthAddress`
and whose derived public key equals `spendingPubKey +
hash(SharedSecret)·G`; the address-verification step succeeds. -/
theorem roundtrip_recovers_stealth_key
    (C : CryptoPrims) (keys : RecipientKeys) (ephPriv : Nat)
    (ann : AnnouncementTS)
    (hspub : keys.spendingPubKey = ((keys.spendingPrivKey : Nat) : Point))
    (hvpub : keys.viewingPubKey = ((keys.viewingPrivKey : Nat) : Point))
    (hv1 : 0 < keys.viewingPrivKey) (hv2 : keys.viewingPrivKey < CURVE_ORDER)
    (he1 : 0 < ephPriv) (he2 : ephPriv < CURVE_ORDER)
    (hgen : generateStealthAddress C
      ⟨keys.spendingPubKey, keys.viewingPubKey⟩ ephPriv = some ann) :
    ∃ d : Nat,
      scanAndRecover C ann keys =
        some (ScanOutcome.success d ann.stealthAddress) ∧
      d = scalarAddMod keys.spendingPrivKey
            (beNat (C.keccak (C.encC
              (((ephPriv : Nat) : Point) * keys.viewingPubKey)))) ∧
      privateKeyToAddress C d = some ann.stealthAddress ∧
      ((d : Nat) : Point) = keys.spendingPubKey +
        ((beNat (C.keccak (C.encC
          (((ephPriv : Nat) : Point) * keys.viewingPubKey))) : Nat) : Point) := by
  simp only [generateStealthAddress, getPublicKey_valid he1 he2,
    computeSharedSecret_valid C he1 he2] at hgen
  set s : Nat := beNat (C.keccak (C.encC
    (((ephPriv : Nat) : Point) * keys.viewingPubKey))) with hs
  cases hsg : getPublicKey s with
  | none => rw [hsg] at hgen; exact Option.noConfusion hgen
  | some s_G =>
    obtain ⟨⟨hs1, hs2⟩, rfl⟩ := getPublicKey_eq_some hsg
    simp only [hsg] at hgen
    cases hadd : addPoints keys.spendingPubKey ((s : Nat) : Point) with
    | none => rw [hadd] at hgen; exact Option.noConfusion hgen
    | some p_stealth =>
      simp only [hadd] at hgen
      obtain ⟨hne, rfl⟩ := addPoints_eq_some hadd
      have hann := (Option.some.inj hgen).symm
      subst hann
      have hcomm : ((keys.viewingPrivKey : Nat) : Point) *
          ((ephPriv : Nat) : Point) =
          ((ephPriv : Nat) : Point) * keys.viewingPubKey := by
        rw [hvpub, mul_comm]
      have hd1 : 0 < scalarAddMod keys.spendingPrivKey s := by
        apply scalarAddMod_pos
        rw [← hspub]
        exact hne
      have hdpt : ((scalarAddMod keys.spendingPrivKey s : Nat) : Point) =
          keys.spendingPubKey + ((s : Nat) : Point) := by
        rw [scalarAddMod_cast, hspub]
      refine ⟨scalarAddMod keys.spendingPrivKey s, ?_, rfl, ?_, ?_⟩
      · simp only [scanAndRecover, computeSharedSecret_valid C hv1 hv2,
          hcomm, ne_eq, not_true_eq_false, if_false, ← hs,
          privateKeyToAddress_valid C hd1 (scalarAddMod_lt _ _), hdpt]
        rw [if_pos trivial]
      · rw [privateKeyToAddress_valid C hd1 (scalarAddMod_lt _ _), hdpt]
      · exact hdpt

/-- C1 witness: a concrete run with the executable primitives; the
hypotheses of `roundtrip_recovers_stealth_key` are discharged at
spending key 1, viewing key 1, ephemeral key 1. -/
theorem roundtrip_recovers_stealth_key_witness :
    ∃ d : Nat,
      scanAndRecover toyPrims
        { stealthAddress := pointToAddress toyPrims ((2 : Nat) : Point)
          ephemeralPubKey := ((1 : Nat) : Point)
          viewTag := 0 }
        { spendingPrivKey := 1, viewingPrivKey := 1
          spendingPubKey := ((1 : Nat) : Point)
          viewingPubKey := ((1 : Nat) : Point) } =
        some (ScanOutcome.success d (pointToAddress toyPrims ((2 : Nat) : Point))) ∧
      d = scalarAddMod 1 (beNat (toyPrims.keccak (toyPrims.encC
            (((1 : Nat) : Point) * ((1 : Nat) : Point))))) ∧
      privateKeyToAddress toyPrims d =
        some (pointToAddress toyPrims ((2 : Nat) : Point)) ∧
      ((d : Nat) : Point) = ((1 : Nat) : Point) +
        ((beNat (toyPrims.keccak (toyPrims.encC
          (((1 : Nat) : Point) * ((1 : Nat) : Point)))) : Nat) : Point) :=
  roundtrip_recovers_stealth_key toyPrims
    { spendingPrivKey := 1, viewingPrivKey := 1
      spendingPubKey := ((1 : Nat) : Point)
      viewingPubKey := ((1 : Nat) : Point) }
    1
    { stealthAddress := pointToAddress toyPrims ((2 : Nat) : Point)
      ephemeralPubKey := ((1 : Nat) : Point)
      viewTag := 0 }
    rfl rfl (by decide) (by decide) (by decide) (by decide) (by decide)

/-- C3: ECDH commutativity — for all valid private keys `a`, `b` with
public keys `A = a·G`, `B = b·G`, `computeSharedSecret a B`
equals `computeSharedSecret b A`. -/
theorem ecdh_commutative (C : CryptoPrims) (a b : Nat) (A B : Point)
    (hA : getPublicKey a = some A) (hB : getPublicKey b = some B) :
    computeSharedSecret C a B = computeSharedSecret C b A := by
  obtain ⟨⟨ha1, ha2⟩, rfl⟩ := getPublicKey_eq_some hA
  obtain ⟨⟨hb1, hb2⟩, rfl⟩ := getPublicKey_eq_some hB
  rw [computeSharedSecret_valid C ha1 ha2, computeSharedSecret_valid C hb1 hb2,
    mul_comm]

/-- C3 witness: commutativity at the concrete keys 2 and 3 with the
executable primitives. -/
theorem ecdh_commutative_witness :
    computeSharedSecret toyPrims 2 ((3 : Nat) : Point) =
      computeSharedSecret toyPrims 3 ((2 : Nat) : Point) :=
  ecdh_commutative toyPrims 2 3 ((2 : Nat) : Point) ((3 : Nat) : Point)
    (by decide) (by decide)

/-- C4 counterexample: the claim "`generatePrivateKey` always returns `k`
with `0 < k < CURVE_ORDER` (retrying internally on an out-of-range draw)"
is false — on the draw of 32 zero bytes the function returns the scalar 0
to its caller. -/
theorem generatePrivateKey_no_retry_counterexample :
    generatePrivateKey (List.replicate 32 0) = 0 ∧
    ¬(0 < generatePrivateKey (List.replicate 32 0) ∧
      generatePrivateKey (List.replicate 32 0) < CURVE_ORDER) := by
  decide

/-- C4 amended: `generatePrivateKey` returns the scalar encoded by the 32
drawn bytes unchanged, with no range validation or retry; on a draw
encoding zero or a value ≥ CURVE_ORDER the caller observes the
out-of-range scalar, and the downstream `getPublicKey` call rejects it. -/
theorem generatePrivateKey_returns_raw_draw (randomBytes : List Nat)
    (h : beNat randomBytes = 0 ∨ CURVE_ORDER ≤ beNat randomBytes) :
    generatePrivateKey randomBytes = beNat randomBytes ∧
    getPublicKey (generatePrivateKey randomBytes) = none := by
  refine ⟨rfl, ?_⟩
  unfold getPublicKey generatePrivateKey
  rw [if_neg]
  rintro ⟨h1, h2⟩
  cases h with
  | inl h0 => omega
  | inr h0 => omega

/-- C4 witness: the amended statement at the all-zero draw. -/
theorem generatePrivateKey_returns_raw_draw_witness :
    (beNat (List.replicate 32 0) = 0 ∨
      CURVE_ORDER ≤ beNat (List.replicate 32 0)) ∧
    generatePrivateKey (List.replicate 32 0) = beNat (List.replicate 32 0) ∧
    getPublicKey (generatePrivateKey (List.replicate 32 0)) = none :=
  ⟨Or.inl (by decide),
   generatePrivateKey_returns_raw_draw (List.replicate 32 0)
     (Or.inl (by decide))⟩

/-- C2 counterexample: in the viem script the scalar used to derive the
stealth public key is *not* the single keccak digest of the encoded ECDH
result — the script hashes that digest a second time.  Concretely, with
the executable primitives, spending key 1, viewing key 1 and ephemeral
key 1, the generated stealth point differs from
`spendingPubKey + (digest of the encoded shared point)·G`. -/
theorem viem_scalar_not_single_digest_counterexample :
    Viem.generateStealthAddress toyPrims2
      { spendingPubKey := ((1 : Nat) : Point)
        viewingPubKey := ((1 : Nat) : Point) } 1 =
      some { ephemeralPubKey := ((1 : Nat) : Point)
             viewTag := 2
             stealthPoint := ((4 : Nat) : Point) } ∧
    ((4 : Nat) : Point) ≠ ((1 : Nat) : Point) +
      ((beNat (toyPrims2.keccak (toyPrims2.encS
        (((1 : Nat) : Point) * ((1 : Nat) : Point)))) : Nat) : Point) := by
  decide

/-- C2 amended: in the viem script both sides compute the shared-secret
digest identically — `keccak256` of the library's encoding of the ECDH
point — and both take the view tag from the first byte of that single
digest; but the scalar used for the stealth key (on the sender side for
`stealthPubKey = spendingPubKey + scalar·G`, and on the recipient side in
`d = spendingPrivKey + scalar mod CURVE_ORDER`) is `keccak256` applied to
that digest *again*, not the digest itself. -/
theorem viem_hash_convention (C : CryptoPrims) (a b : Nat) (spendPub : Point)
    (r : Viem.StealthResult) (keys : RecipientKeys) (ann : AnnouncementTS)
    (d : Nat) (addr : List Nat)
    (ha1 : 0 < a) (ha2 : a < CURVE_ORDER)
    (hb1 : 0 < b) (hb2 : b < CURVE_ORDER)
    (hgen : Viem.generateStealthAddress C
      { spendingPubKey := spendPub, viewingPubKey := ((b : Nat) : Point) } a =
      some r)
    (hview : keys.viewingPrivKey = b)
    (heph : ann.ephemeralPubKey = ((a : Nat) : Point))
    (hscan : Viem.scanAndRecover C ann keys =
        some (ScanOutcome.success d addr) ∨
      Viem.scanAndRecover C ann keys =
        some (ScanOutcome.mismatch d addr)) :
    Viem.computeSharedSecret C a ((b : Nat) : Point) =
      some (C.keccak (C.encS (((a : Nat) : Point) * ((b : Nat) : Point)))) ∧
    Viem.computeSharedSecret C b ((a : Nat) : Point) =
      Viem.computeSharedSecret C a ((b : Nat) : Point) ∧
    r.viewTag =
      (C.keccak (C.encS (((a : Nat) : Point) * ((b : Nat) : Point)))).headD 0 ∧
    r.stealthPoint = spendPub +
      ((beNat (C.keccak (C.keccak (C.encS
        (((a : Nat) : Point) * ((b : Nat) : Point))))) : Nat) : Point) ∧
    d = scalarAddMod keys.spendingPrivKey
      (beNat (C.keccak (C.keccak (C.encS
        (((a : Nat) : Point) * ((b : Nat) : Point)))))) := by
  have hmul : ((b : Nat) : Point) * ((a : Nat) : Point) =
      ((a : Nat) : Point) * ((b : Nat) : Point) := mul_comm _ _
  refine ⟨viemSharedSecret_valid C ha1 ha2 _, ?_, ?_⟩
  · rw [viemSharedSecret_valid C ha1 ha2,
      viemSharedSecret_valid C hb1 hb2, hmul]
  have hr : r.viewTag =
      (C.keccak (C.encS (((a : Nat) : Point) * ((b : Nat) : Point)))).headD 0 ∧
      r.stealthPoint = spendPub +
        ((beNat (C.keccak (C.keccak (C.encS
          (((a : Nat) : Point) * ((b : Nat) : Point))))) : Nat) : Point) := by
    simp only [Viem.generateStealthAddress, getPublicKey_valid ha1 ha2,
      viemSharedSecret_valid C ha1 ha2] at hgen
    split_ifs at hgen
    all_goals
      first
        | exact Option.noConfusion hgen
        | · obtain rfl := (Option.some.inj hgen).symm
            exact ⟨rfl, rfl⟩
  have hd : d = scalarAddMod keys.spendingPrivKey
      (beNat (C.keccak (C.keccak (C.encS
        (((a : Nat) : Point) * ((b : Nat) : Point)))))) := by
    simp only [Viem.scanAndRecover, hview, heph,
      viemSharedSecret_valid C hb1 hb2, hmul] at hscan
    split_ifs at hscan with htag
    · cases hscan with
      | inl h => simp at h
      | inr h => simp at h
    · cases haddr : privateKeyToAddress C (scalarAddMod keys.spendingPrivKey
        (beNat (C.keccak (C.keccak (C.encS
          (((a : Nat) : Point) * ((b : Nat) : Point))))))) with
      | none =>
        simp only [haddr] at hscan
        cases hscan with
        | inl h => exact Option.noConfusion h
        | inr h => exact Option.noConfusion h
      | some derived =>
        simp only [haddr] at hscan
        split_ifs at hscan
        · cases hscan with
          | inl h =>
            exact (ScanOutcome.success.inj (Option.some.inj h)).1.symm
          | inr h => simp at h
        · cases hscan with
          | inl h => simp at h
          | inr h =>
            exact (ScanOutcome.mismatch.inj (Option.some.inj h)).1.symm
  exact ⟨hr.1, hr.2, hd⟩

/-- C2 witness: the amended statement at the concrete round trip with the
executable primitives (spending key 1, viewing key 1, ephemeral key 1). -/
theorem viem_hash_convention_witness :
    Viem.computeSharedSecret toyPrims2 1 ((1 : Nat) : Point) =
      some (toyPrims2.keccak (toyPrims2.encS
        (((1 : Nat) : Point) * ((1 : Nat) : Point)))) ∧
    Viem.computeSharedSecret toyPrims2 1 ((1 : Nat) : Point) =
      Viem.computeSharedSecret toyPrims2 1 ((1 : Nat) : Point) ∧
    (Viem.StealthResult.mk ((1 : Nat) : Point) 2 ((4 : Nat) : Point)).viewTag =
      (toyPrims2.keccak (toyPrims2.encS
        (((1 : Nat) : Point) * ((1 : Nat) : Point)))).headD 0 ∧
    (Viem.StealthResult.mk ((1 : Nat) : Point) 2
        ((4 : Nat) : Point)).stealthPoint = ((1 : Nat) : Point) +
      ((beNat (toyPrims2.keccak (toyPrims2.keccak (toyPrims2.encS
        (((1 : Nat) : Point) * ((1 : Nat) : Point))))) : Nat) : Point) ∧
    4 = scalarAddMod 1
      (beNat (toyPrims2.keccak (toyPrims2.keccak (toyPrims2.encS
        (((1 : Nat) : Point) * ((1 : Nat) : Point)))))) :=
  viem_hash_convention toyPrims2 1 1 ((1 : Nat) : Point)
    (Viem.StealthResult.mk ((1 : Nat) : Point) 2 ((4 : Nat) : Point))
    { spendingPrivKey := 1, viewingPrivKey := 1
      spendingPubKey := ((1 : Nat) : Point)
      viewingPubKey := ((1 : Nat) : Point) }
    { stealthAddress := [5]
      ephemeralPubKey := ((1 : Nat) : Point)
      viewTag := 2 }
    4 [5]
    (by decide) (by decide) (by decide) (by decide)
    (by decide) rfl rfl (Or.inl (by decide))

/-- C5 counterexample: the walkthrough scanner does not reject announcements
whose `schemeId` differs from the fixed constant 1 — a concrete announcement
with `schemeId = 2` is fully processed (ECDH, view-tag check, recovery) all
the way to a successful recovery. -/
theorem scanner_processes_foreign_schemeId_counterexample :
    (2 : Nat) ≠ SCHEME_ID ∧
    Walk.scanAndRecover toyPrims
      { schemeId := 2
        stealthAddress := pointToAddress toyPrims ((2 : Nat) : Point)
        caller := []
        ephemeralPubKey := ((1 : Nat) : Point)
        metadata := [0] }
      { spendingPrivKey := 1, viewingPrivKey := 1
        spendingPubKey := ((1 : Nat) : Point)
        viewingPubKey := ((1 : Nat) : Point) } =
      some (ScanOutcome.success 2
        (pointToAddress toyPrims ((2 : Nat) : Point))) := by
  decide

/-- C5 amended: the walkthrough scanner ignores `schemeId` entirely — its
result is the same for every scheme id carried by the announcement. -/
theorem scanner_ignores_schemeId (C : CryptoPrims) (ann : Walk.Announcement)
    (keys : RecipientKeys) (s1 s2 : Nat) :
    Walk.scanAndRecover C { ann with schemeId := s1 } keys =
      Walk.scanAndRecover C { ann with schemeId := s2 } keys := rfl

/-- C6 counterexample: the scanner's return value does not distinguish the
three outcomes — two concrete runs, one ending in a successful recovery and
one in a view-tag non-match, return the identical value (`undefined`). -/
theorem scan_return_shape_counterexample :
    scanAndRecover toyPrims
      { stealthAddress := pointToAddress toyPrims ((2 : Nat) : Point)
        ephemeralPubKey := ((1 : Nat) : Point)
        viewTag := 0 }
      { spendingPrivKey := 1, viewingPrivKey := 1
        spendingPubKey := ((1 : Nat) : Point)
        viewingPubKey := ((1 : Nat) : Point) } =
      some (ScanOutcome.success 2
        (pointToAddress toyPrims ((2 : Nat) : Point))) ∧
    scanAndRecover toyPrims
      { stealthAddress := pointToAddress toyPrims ((2 : Nat) : Point)
        ephemeralPubKey := ((1 : Nat) : Point)
        viewTag := 5 }
      { spendingPrivKey := 1, viewingPrivKey := 1
        spendingPubKey := ((1 : Nat) : Point)
        viewingPubKey := ((1 : Nat) : Point) } =
      some ScanOutcome.noMatch ∧
    scanReturnValue toyPrims
      { stealthAddress := pointToAddress toyPrims ((2 : Nat) : Point)
        ephemeralPubKey := ((1 : Nat) : Point)
        viewTag := 0 }
      { spendingPrivKey := 1, viewingPrivKey := 1
        spendingPubKey := ((1 : Nat) : Point)
        viewingPubKey := ((1 : Nat) : Point) } =
    scanReturnValue toyPrims
      { stealthAddress := pointToAddress toyPrims ((2 : Nat) : Point)
        ephemeralPubKey := ((1 : Nat) : Point)
        viewTag := 5 }
      { spendingPrivKey := 1, viewingPrivKey := 1
        spendingPubKey := ((1 : Nat) : Point)
        viewingPubKey := ((1 : Nat) : Point) } := by
  decide

/-- C6 amended: when the view tag matches but the derived address differs
from the announced one, the scanner ends in the distinct `mismatch` verdict
(the console FAILURE branch) — the mismatch is reported, never silently
identified with a success or a routine non-match — but the function's
*return value* is `undefined` there, exactly as on every other
non-throwing path. -/
theorem scan_mismatch_reported (C : CryptoPrims) (ann : AnnouncementTS)
    (keys : RecipientKeys) (ss : List Nat) (addr : List Nat)
    (hss : computeSharedSecret C keys.viewingPrivKey ann.ephemeralPubKey =
      some ss)
    (htag : (C.keccak ss).headD 0 = ann.viewTag)
    (haddr : privateKeyToAddress C
      (scalarAddMod keys.spendingPrivKey (beNat (C.keccak ss))) = some addr)
    (hne : addr ≠ ann.stealthAddress) :
    scanAndRecover C ann keys =
      some (ScanOutcome.mismatch
        (scalarAddMod keys.spendingPrivKey (beNat (C.keccak ss))) addr) ∧
    scanReturnValue C ann keys = some () := by
  have hscan : scanAndRecover C ann keys =
      some (ScanOutcome.mismatch
        (scalarAddMod keys.spendingPrivKey (beNat (C.keccak ss))) addr) := by
    simp only [scanAndRecover, hss, htag, ne_eq, not_true_eq_false, if_false,
      haddr]
    rw [if_neg hne]
  refine ⟨hscan, ?_⟩
  rw [scanReturnValue, hscan]
  rfl

/-- C6 witness: the amended statement at a concrete corrupted announcement
(the announced address `[9]` is not the derived one). -/
theorem scan_mismatch_reported_witness :
    scanAndRecover toyPrims
      { stealthAddress := [9]
        ephemeralPubKey := ((1 : Nat) : Point)
        viewTag := 0 }
      { spendingPrivKey := 1, viewingPrivKey := 1
        spendingPubKey := ((1 : Nat) : Point)
        viewingPubKey := ((1 : Nat) : Point) } =
      some (ScanOutcome.mismatch
        (scalarAddMod 1 (beNat (toyPrims.keccak (toyPrims.encC
          (((1 : Nat) : Point) * ((1 : Nat) : Point))))))
        (pointToAddress toyPrims ((2 : Nat) : Point))) ∧
    scanReturnValue toyPrims
      { stealthAddress := [9]
        ephemeralPubKey := ((1 : Nat) : Point)
        viewTag := 0 }
      { spendingPrivKey := 1, viewingPrivKey := 1
        spendingPubKey := ((1 : Nat) : Point)
        viewingPubKey := ((1 : Nat) : Point) } = some () :=
  scan_mismatch_reported toyPrims
    { stealthAddress := [9]
      ephemeralPubKey := ((1 : Nat) : Point)
      viewTag := 0 }
    { spendingPrivKey := 1, viewingPrivKey := 1
      spendingPubKey := ((1 : Nat) : Point)
      viewingPubKey := ((1 : Nat) : Point) }
    (toyPrims.encC (((1 : Nat) : Point) * ((1 : Nat) : Point)))
    (pointToAddress toyPrims ((2 : Nat) : Point))
    (by decide) (by decide) (by decide) (by decide)

/-- C7: `scalarAddMod` never returns a value ≥ CURVE_ORDER, and at
`a = CURVE_ORDER - 1`, `b = 2` it returns exactly 1. -/
theorem scalarAddMod_boundary :
    (∀ a b : Nat, scalarAddMod a b < CURVE_ORDER) ∧
    scalarAddMod (CURVE_ORDER - 1) 2 = 1 :=
  ⟨scalarAddMod_lt, by decide⟩

/-- Helper for C8: hex encoding doubles the byte count. -/
theorem bytesToHexChars_length (l : List Nat) :
    (bytesToHexChars l).length = 2 * l.length := by
  induction l with
  | nil => rfl
  | cons b t ih =>
    simp only [bytesToHexChars, List.map_cons, List.flatten_cons,
      List.length_append, List.length_cons] at *
    rw [ih]
    simp [byteToHexChars]
    omega

/-- C8: the canonical meta-address wire string is `"st:eth:0x"` followed by
the hex of the 33-byte compressed spending key immediately concatenated
with the hex of the 33-byte compressed viewing key — no internal separator,
a single `0x` prefix (and hence 141 characters in total). -/
theorem metaAddress_canonical_form (spendBytes viewBytes : List Nat)
    (hspend : spendBytes.length = 33) (hview : viewBytes.length = 33) :
    metaAddressString (pubKeyHexChars spendBytes) (pubKeyHexChars viewBytes) =
      "st:eth:0x".data ++ bytesToHexChars spendBytes ++
        bytesToHexChars viewBytes ∧
    (metaAddressString (pubKeyHexChars spendBytes)
      (pubKeyHexChars viewBytes)).length = 141 := by
  have hform : metaAddressString (pubKeyHexChars spendBytes)
      (pubKeyHexChars viewBytes) =
      "st:eth:0x".data ++ bytesToHexChars spendBytes ++
        bytesToHexChars viewBytes := by
    simp [metaAddressString, pubKeyHexChars]
  refine ⟨hform, ?_⟩
  rw [hform]
  simp [bytesToHexChars_length, hspend, hview]

/-- C8 witness: the canonical form at two concrete 33-byte compressed
keys. -/
theorem metaAddress_canonical_form_witness :
    metaAddressString (pubKeyHexChars (List.replicate 33 171))
      (pubKeyHexChars (List.replicate 33 205)) =
      "st:eth:0x".data ++ bytesToHexChars (List.replicate 33 171) ++
        bytesToHexChars (List.replicate 33 205) ∧
    (metaAddressString (pubKeyHexChars (List.replicate 33 171))
      (pubKeyHexChars (List.replicate 33 205))).length = 141 :=
  metaAddress_canonical_form (List.replicate 33 171) (List.replicate 33 205)
    (by decide) (by decide)

/-- C9: the point addition of the stealth-key derivation fails precisely
when the sum is the identity element (the library's affine conversion
throws on the point at infinity), and the generator surfaces this: when
`spendingPubKey + hash(SharedSecret)·G` is the identity, no announcement is
produced. -/
theorem addPoints_point_at_infinity :
    (∀ P Q : Point, addPoints P Q = none ↔ P + Q = 0) ∧
    (∀ (C : CryptoPrims) (meta : MetaAddress) (ephPriv : Nat),
      0 < ephPriv → ephPriv < CURVE_ORDER →
      meta.spendingPubKey +
        ((beNat (C.keccak (C.encC
          (((ephPriv : Nat) : Point) * meta.viewingPubKey))) : Nat) : Point) =
        0 →
      generateStealthAddress C meta ephPriv = none) := by
  constructor
  · intro P Q
    unfold addPoints
    split_ifs with h
    · simp [h]
    · simp [h]
  · intro C meta ephPriv he1 he2 hzero
    simp only [generateStealthAddress, getPublicKey_valid he1 he2,
      computeSharedSecret_valid C he1 he2]
    cases hsg : getPublicKey (beNat (C.keccak (C.encC
        (((ephPriv : Nat) : Point) * meta.viewingPubKey)))) with
    | none => rfl
    | some s_G =>
      obtain ⟨-, rfl⟩ := getPublicKey_eq_some hsg
      have : addPoints meta.spendingPubKey
          ((beNat (C.keccak (C.encC
            (((ephPriv : Nat) : Point) * meta.viewingPubKey))) : Nat) :
              Point) = none := by
        unfold addPoints
        rw [if_pos hzero]
      simp [this]

/-- C9 witness: the failing addition and the aborted generation at a
concrete antipodal pair (`1·G` and `(CURVE_ORDER - 1)·G`). -/
theorem addPoints_point_at_infinity_witness :
    addPoints ((1 : Nat) : Point) ((CURVE_ORDER - 1 : Nat) : Point) = none ∧
    generateStealthAddress toyPrims
      { spendingPubKey := ((CURVE_ORDER - 1 : Nat) : Point)
        viewingPubKey := ((1 : Nat) : Point) } 1 = none :=
  ⟨(addPoints_point_at_infinity.1 _ _).mpr (by decide),
   addPoints_point_at_infinity.2 toyPrims
     { spendingPubKey := ((CURVE_ORDER - 1 : Nat) : Point)
       viewingPubKey := ((1 : Nat) : Point) } 1
     (by decide) (by decide) (by decide)⟩

/-- Helper for C10: the scanner reaches the `noMatch` early return exactly
when the view-tag decision — a function of the viewing private key and the
announcement's `ephemeralPubKey` and `viewTag` alone — rejects. -/
theorem scanAndRecover_noMatch_iff (C : CryptoPrims) (ann : AnnouncementTS)
    (keys : RecipientKeys) :
    scanAndRecover C ann keys = some ScanOutcome.noMatch ↔
      scanTagDecision C keys.viewingPrivKey ann.ephemeralPubKey ann.viewTag =
        some false := by
  unfold scanAndRecover scanTagDecision
  cases hss : computeSharedSecret C keys.viewingPrivKey ann.ephemeralPubKey with
  | none => simp
  | some ss =>
    simp only [Option.map_some']
    by_cases htag : (C.keccak ss).headD 0 = ann.viewTag
    · rw [if_neg (not_not_intro htag), beq_iff_eq.mpr htag]
      apply iff_of_false
      · cases haddr : privateKeyToAddress C
            (scalarAddMod keys.spendingPrivKey (beNat (C.keccak ss))) with
        | none => simp [haddr]
        | some derived =>
          simp only [haddr]
          split_ifs <;> simp
      · simp
    · have hbeq : ((C.keccak ss).headD 0 == ann.viewTag) = false :=
        beq_eq_false_iff_ne.mpr htag
      rw [if_pos htag, hbeq]
      simp

/-- C10: the view-tag accept/reject decision of the scanner is a function
only of the viewing private key and the announcement's `ephemeralPubKey`
and `viewTag`; two runs that differ only in the spending private key take
the same branch at the tag check, and a rejected announcement yields
`noMatch` irrespective of the spending key. -/
theorem viewtag_noninterference (C : CryptoPrims) (ann : AnnouncementTS)
    (k k' : RecipientKeys) (hview : k.viewingPrivKey = k'.viewingPrivKey) :
    (scanAndRecover C ann k = some ScanOutcome.noMatch ↔
      scanTagDecision C k.viewingPrivKey ann.ephemeralPubKey ann.viewTag =
        some false) ∧
    (scanAndRecover C ann k = some ScanOutcome.noMatch ↔
      scanAndRecover C ann k' = some ScanOutcome.noMatch) := by
  refine ⟨scanAndRecover_noMatch_iff C ann k, ?_⟩
  rw [scanAndRecover_noMatch_iff C ann k, scanAndRecover_noMatch_iff C ann k',
    hview]

/-- C10 witness: two concrete key sets sharing the viewing key but with
different spending keys agree on the tag decision and on the `noMatch`
branch. -/
theorem viewtag_noninterference_witness :
    (scanAndRecover toyPrims
      { stealthAddress := [9]
        ephemeralPubKey := ((1 : Nat) : Point)
        viewTag := 5 }
      { spendingPrivKey := 1, viewingPrivKey := 1
        spendingPubKey := ((1 : Nat) : Point)
        viewingPubKey := ((1 : Nat) : Point) } = some ScanOutcome.noMatch ↔
      scanTagDecision toyPrims 1 ((1 : Nat) : Point) 5 = some false) ∧
    (scanAndRecover toyPrims
      { stealthAddress := [9]
        ephemeralPubKey := ((1 : Nat) : Point)
        viewTag := 5 }
      { spendingPrivKey := 1, viewingPrivKey := 1
        spendingPubKey := ((1 : Nat) : Point)
        viewingPubKey := ((1 : Nat) : Point) } = some ScanOutcome.noMatch ↔
      scanAndRecover toyPrims
      { stealthAddress := [9]
        ephemeralPubKey := ((1 : Nat) : Point)
        viewTag := 5 }
      { spendingPrivKey := 2, viewingPrivKey := 1
        spendingPubKey := ((1 : Nat) : Point)
        viewingPubKey := ((1 : Nat) : Point) } = some ScanOutcome.noMatch) :=
  viewtag_noninterference toyPrims
    { stealthAddress := [9]
      ephemeralPubKey := ((1 : Nat) : Point)
      viewTag := 5 }
    { spendingPrivKey := 1, viewingPrivKey := 1
      spendingPubKey := ((1 : Nat) : Point)
      viewingPubKey := ((1 : Nat) : Point) }
    { spendingPrivKey := 2, viewingPrivKey := 1
      spendingPubKey := ((1 : Nat) : Point)
      viewingPubKey := ((1 : Nat) : Point) }
    rfl
